import Mathlib

/-!
Verification development for the spotify-mcp repository.

Part 1 models the JSON values that flow between the MCP tools and the
external Spotify backend, together with the fragments of CPython library
behaviour the dispatcher relies on: truthiness, a restricted
pickup of the stdlib JSON decoder, and the textual rendering used in
log-style interpolations.

Part 2 embeds the five tool entry points of src/sse-server.py
(playback, search, queue, get_info, playlist) as pure functions over an
abstract backend.  The backend is a function from calls to either a
result value or a raised message; each tool returns the result string
together with the list of backend calls it performed, so theorems can
speak about side effects.

Part 3 embeds process_query of src/sse_client.py as an explicit
state-passing function over abstract completion-service and call_tool
oracles, recording an event trace.
-/

namespace SpotifyMcp

/-- Model of the JSON values exchanged with the backend.  Numbers are
restricted to integers, which covers everything this repository sends. -/
inductive JsonVal where
  | null
  | bool (b : Bool)
  | num (n : Int)
  | str (s : String)
  | arr (items : List JsonVal)
  | obj (fields : List (String × JsonVal))

/-- Python truthiness of a JSON-decoded value: None, False, 0, empty
string, empty list and empty dict are falsy. -/
def truthy : JsonVal → Bool
  | .null => false
  | .bool b => b
  | .num n => n != 0
  | .str s => !decide (s = "")
  | .arr items => !items.isEmpty
  | .obj fields => !fields.isEmpty

/-- Whether a decoded value is a JSON array. -/
def JsonVal.is_arr : JsonVal → Bool
  | .arr _ => true
  | _ => false

/-- Python truthiness of an optional string argument: absent (None) and
the empty string are falsy, matching `if not arg:` in the source. -/
def optTruthy : Option String → Bool
  | none => false
  | some s => !decide (s = "")

/-- Drop leading JSON whitespace. -/
def skipWs : List Char → List Char
  | c :: cs => if c = ' ' ∨ c = '\t' ∨ c = '\n' ∨ c = '\r' then skipWs cs else c :: cs
  | [] => []

/-- Split a leading run of decimal digits from the input. -/
def takeDigits : List Char → List Char × List Char
  | c :: cs =>
    if c.isDigit then
      let p := takeDigits cs
      (c :: p.1, p.2)
    else ([], c :: cs)
  | [] => ([], [])

/-- Accumulate the numeric value of a digit run. -/
def digitsVal (acc : Nat) : List Char → Nat
  | [] => acc
  | c :: cs => digitsVal (acc * 10 + (c.toNat - 48)) cs

/-- Read the body of a JSON string literal up to the closing quote.
Escape sequences are outside the modelled fragment. -/
def takeStr : List Char → Option (String × List Char)
  | [] => none
  | c :: cs =>
    if c = '"' then some ("", cs)
    else if c = '\\' then none
    else
      match takeStr cs with
      | some (s, rest) => some (String.mk (c :: s.data), rest)
      | none => none

/-- Consume an expected literal character sequence. -/
def stripLit : List Char → List Char → Option (List Char)
  | [], cs => some cs
  | l :: ls, c :: cs => if c = l then stripLit ls cs else none
  | _ :: _, [] => none

mutual

/-- Fuel-indexed recursive-descent JSON value reader. -/
def pVal : Nat → List Char → Option (JsonVal × List Char)
  | 0, _ => none
  | Nat.succ fuel, cs =>
    match skipWs cs with
    | [] => none
    | c :: cs' =>
      if c = 'n' then (stripLit ['u', 'l', 'l'] cs').map (fun r => (.null, r))
      else if c = 't' then (stripLit ['r', 'u', 'e'] cs').map (fun r => (.bool true, r))
      else if c = 'f' then (stripLit ['a', 'l', 's', 'e'] cs').map (fun r => (.bool false, r))
      else if c = '"' then (takeStr cs').map (fun p => (.str p.1, p.2))
      else if c = '[' then
        match skipWs cs' with
        | ']' :: rest => some (.arr [], rest)
        | cs'' =>
          match pItems fuel cs'' with
          | some (vs, rest) => some (.arr vs, rest)
          | none => none
      else if c = '\x7b' then
        match skipWs cs' with
        | '\x7d' :: rest => some (.obj [], rest)
        | cs'' =>
          match pFields fuel cs'' with
          | some (kvs, rest) => some (.obj kvs, rest)
          | none => none
      else if c = '-' then
        match takeDigits cs' with
        | ([], _) => none
        | (ds, rest) => some (.num (-(digitsVal 0 ds : Int)), rest)
      else if c.isDigit then
        match takeDigits (c :: cs') with
        | (ds, rest) => some (.num (digitsVal 0 ds : Int), rest)
      else none

/-- Comma-separated array items up to the closing bracket. -/
def pItems : Nat → List Char → Option (List JsonVal × List Char)
  | 0, _ => none
  | Nat.succ fuel, cs =>
    match pVal fuel cs with
    | none => none
    | some (v, rest) =>
      match skipWs rest with
      | ',' :: rest' =>
        match pItems fuel rest' with
        | some (vs, rest'') => some (v :: vs, rest'')
        | none => none
      | ']' :: rest' => some ([v], rest')
      | _ => none

/-- Comma-separated object fields up to the closing brace. -/
def pFields : Nat → List Char → Option (List (String × JsonVal) × List Char)
  | 0, _ => none
  | Nat.succ fuel, cs =>
    match skipWs cs with
    | '"' :: cs' =>
      match takeStr cs' with
      | none => none
      | some (k, rest) =>
        match skipWs rest with
        | ':' :: rest' =>
          match pVal fuel rest' with
          | none => none
          | some (v, rest'') =>
            match skipWs rest'' with
            | ',' :: r3 =>
              match pFields fuel r3 with
              | some (kvs, r4) => some ((k, v) :: kvs, r4)
              | none => none
            | '\x7d' :: r3 => some ([(k, v)], r3)
            | _ => none
        | _ => none
    | _ => none

end

/-- Model of the stdlib JSON decoder json.loads on the fragment used by
this repository (null, booleans, integers, escape-free strings, arrays,
objects).  Returns none where the decoder raises JSONDecodeError, in
particular on trailing garbage and on the empty string. -/
def json_loads (s : String) : Option JsonVal :=
  match pVal (s.length + 2) s.data with
  | some (v, rest) => if (skipWs rest).isEmpty then some v else none
  | none => none

mutual

/-- Model of the textual rendering repr() applied to a JSON-decoded
Python value, as produced by string interpolation of dicts and lists. -/
def pyRepr : JsonVal → String
  | .null => "None"
  | .bool true => "True"
  | .bool false => "False"
  | .num n => toString n
  | .str s => "\x27" ++ s ++ "\x27"
  | .arr items => "[" ++ pyReprList items ++ "]"
  | .obj fields => "\x7b" ++ pyReprFields fields ++ "\x7d"

/-- Comma-and-space separated renderings of list elements. -/
def pyReprList : List JsonVal → String
  | [] => ""
  | [v] => pyRepr v
  | v :: vs => pyRepr v ++ ", " ++ pyReprList vs

/-- Comma-and-space separated renderings of dict entries. -/
def pyReprFields : List (String × JsonVal) → String
  | [] => ""
  | [(k, v)] => "\x27" ++ k ++ "\x27: " ++ pyRepr v
  | (k, v) :: kvs => "\x27" ++ k ++ "\x27: " ++ pyRepr v ++ ", " ++ pyReprFields kvs

end

/-- Model of str() applied to a JSON-decoded Python value: strings
render without quotes at top level, containers via repr. -/
def pyStr : JsonVal → String
  | .str s => s
  | v => pyRepr v

mutual

/-- Model of json.dumps used for successful tool payloads.  The claims
never inspect this output, so the indent=2 whitespace layout of the
stdlib encoder is not reproduced; only that the payload is a
deterministic JSON rendering of the value. -/
def json_dumps : JsonVal → String
  | .null => "null"
  | .bool true => "true"
  | .bool false => "false"
  | .num n => toString n
  | .str s => "\"" ++ s ++ "\""
  | .arr items => "[" ++ dumpsList items ++ "]"
  | .obj fields => "\x7b" ++ dumpsFields fields ++ "\x7d"

/-- Comma-separated renderings of array elements. -/
def dumpsList : List JsonVal → String
  | [] => ""
  | [v] => json_dumps v
  | v :: vs => json_dumps v ++ ", " ++ dumpsList vs

/-- Comma-separated renderings of object fields. -/
def dumpsFields : List (String × JsonVal) → String
  | [] => ""
  | [(k, v)] => "\"" ++ k ++ "\": " ++ json_dumps v
  | (k, v) :: kvs => "\"" ++ k ++ "\": " ++ json_dumps v ++ ", " ++ dumpsFields kvs

end

/-- Leading-segment test on character lists. -/
def listPre : List Char → List Char → Bool
  | [], _ => true
  | _ :: _, [] => false
  | n :: ns, c :: cs => n = c && listPre ns cs

/-- Substring occurrence on character lists. -/
def listSub (ns : List Char) : List Char → Bool
  | [] => listPre ns []
  | c :: cs => listPre ns (c :: cs) || listSub ns cs

/-- Substring occurrence, used to state that an error text names an
argument. -/
@[reducible]
def mentions (needle msg : String) : Prop := listSub needle.data msg.data = true

/-! ## Server-side dispatcher (src/sse-server.py)

Each tool body in the source wraps its action dispatch in one
try/except that converts any raised exception into the string
"Error: " followed by the exception message.  Every dispatch arm
performs at most one backend call on the shared spotify_client, and all
code before and after that call is pure, so the embedding records the
single call and routes its raised message straight to the handler. -/

/-- One operation on the Action Backend Adapter (spotify_client),
with the arguments the dispatcher forwards. -/
inductive BackendCall where
  | get_current_track
  | start_playback (spotify_uri : Option String)
  | pause_playback
  | skip_track (n : Int)
  | search (query : String) (qtype : String) (limit : Int)
  | add_to_queue (track_id : String)
  | get_queue
  | get_info (item_uri : String)
  | get_current_user_playlists
  | get_playlist_tracks (playlist_id : String)
  | add_tracks_to_playlist (playlist_id : String) (track_ids : JsonVal)
  | remove_tracks_from_playlist (playlist_id : String) (track_ids : JsonVal)
  | change_playlist_details (playlist_id : String) (name : Option String)
      (description : Option String)

/-- Behaviour of the external backend: each call either returns a JSON
value or raises an exception carrying a message. -/
def Backend : Type := BackendCall → Except String JsonVal

/-- Observable outcome of one tool invocation: the returned text and
the backend calls performed, in order. -/
structure ToolOutcome where
  result : String
  calls : List BackendCall

/-- Perform one backend call under the enclosing try/except of a tool
body: a raised message becomes the "Error: " text, a returned value is
rendered by the pure continuation.  Either way the call happened. -/
def callThen (be : Backend) (c : BackendCall) (k : JsonVal → String) : ToolOutcome :=
  match be c with
  | .ok v => ⟨k v, [c]⟩
  | .error e => ⟨"Error: " ++ e, [c]⟩

/-- Embedding of the playback tool of src/sse-server.py. -/
def playback (be : Backend) (action : String) (spotify_uri : Option String)
    (num_skips : Int) : ToolOutcome :=
  match action with
  | "get" =>
    callThen be .get_current_track fun curr_track =>
      if truthy curr_track then json_dumps curr_track else "No track playing."
  | "start" => callThen be (.start_playback spotify_uri) fun _ => "Playback starting."
  | "pause" => callThen be .pause_playback fun _ => "Playback paused."
  | "skip" => callThen be (.skip_track num_skips) fun _ => "Skipped to next track."
  | _ => ⟨"Unknown action: " ++ action ++ ". Supported actions are: get, start, pause, skip.", []⟩

/-- Embedding of the search tool of src/sse-server.py. -/
def search (be : Backend) (query : String) (qtype : String) (limit : Int) : ToolOutcome :=
  callThen be (.search query qtype limit) fun search_results => json_dumps search_results

/-- Embedding of the queue tool of src/sse-server.py. -/
def queue (be : Backend) (action : String) (track_id : Option String) : ToolOutcome :=
  match action with
  | "add" =>
    if !optTruthy track_id then ⟨"track_id is required for add action", []⟩
    else callThen be (.add_to_queue (track_id.getD "")) fun _ => "Track added to queue."
  | "get" => callThen be .get_queue fun queue_data => json_dumps queue_data
  | _ => ⟨"Unknown queue action: " ++ action ++ ". Supported actions are: add, get.", []⟩

/-- Embedding of the get_info tool of src/sse-server.py. -/
def get_info (be : Backend) (item_uri : String) : ToolOutcome :=
  callThen be (.get_info item_uri) fun item_info => json_dumps item_info

/-- Embedding of the playlist tool of src/sse-server.py.  The inner
try/except around json.loads catches only JSONDecodeError and returns
the malformed-argument text without raising. -/
def playlist (be : Backend) (action : String) (playlist_id : Option String)
    (track_ids : Option String) (name : Option String)
    (description : Option String) : ToolOutcome :=
  match action with
  | "get" =>
    callThen be .get_current_user_playlists fun playlists => json_dumps playlists
  | "get_tracks" =>
    if !optTruthy playlist_id then
      ⟨"playlist_id is required for get_tracks action.", []⟩
    else
      callThen be (.get_playlist_tracks (playlist_id.getD "")) fun tracks =>
        json_dumps tracks
  | "add_tracks" =>
    if !optTruthy playlist_id || !optTruthy track_ids then
      ⟨"playlist_id and track_ids are required for add_tracks action.", []⟩
    else
      match json_loads (track_ids.getD "") with
      | none => ⟨"Error: track_ids must be a valid JSON array.", []⟩
      | some track_ids_list =>
        callThen be (.add_tracks_to_playlist (playlist_id.getD "") track_ids_list)
          fun _ => "Tracks added to playlist."
  | "remove_tracks" =>
    if !optTruthy playlist_id || !optTruthy track_ids then
      ⟨"playlist_id and track_ids are required for remove_tracks action.", []⟩
    else
      match json_loads (track_ids.getD "") with
      | none => ⟨"Error: track_ids must be a valid JSON array.", []⟩
      | some track_ids_list =>
        callThen be (.remove_tracks_from_playlist (playlist_id.getD "") track_ids_list)
          fun _ => "Tracks removed from playlist."
  | "change_details" =>
    if !optTruthy playlist_id then
      ⟨"playlist_id is required for change_details action.", []⟩
    else if !optTruthy name && !optTruthy description then
      ⟨"At least one of name or description is required.", []⟩
    else
      callThen be (.change_playlist_details (playlist_id.getD "") name description)
        fun _ => "Playlist details changed."
  | _ =>
    ⟨"Unknown playlist action: " ++ action ++
      ". Supported actions are: get, get_tracks, add_tracks, remove_tracks, change_details.", []⟩

/-! ## Client-side orchestration loop (src/sse_client.py, process_query)

The loop is embedded as explicit state passing over two external
oracles: the completion service (called once with the tool manifest, and
again inside the per-tool-call loop without it) and session.call_tool.
The state records the conversation, the accumulated tool_results and
final_text lists, and an event trace that logs every oracle interaction
in order, so theorems can speak about when each service was invoked.
A raised exception is propagated as an error value together with the
state at the moment it was raised; process_query converts it to the
"Error processing query: " text, matching the single outer try/except
of the source. -/

namespace Client

/-- One tool call requested by the completion service: a function name
and a JSON-encoded argument string. -/
structure ToolCallReq where
  name : String
  arguments : String

/-- Message part of one completion choice: optional free text and the
list of requested tool calls (empty when the attribute is missing). -/
structure ChoiceMessage where
  content : Option String
  tool_calls : List ToolCallReq

/-- One choice of a completion response. -/
structure Choice where
  message : ChoiceMessage

/-- Response of the completion service. -/
structure LLMResponse where
  choices : List Choice

/-- Result of session.call_tool: the list of text contents of the MCP
response. -/
structure CallToolResult where
  content : List String

/-- One conversation turn as stored in the messages list. -/
structure Msg where
  role : String
  content : String

/-- One interaction with an external service, in the order performed. -/
inductive Event where
  | llm (response : Except String LLMResponse)
  | tool (name : String) (args : JsonVal) (result : Except String CallToolResult)

/-- External collaborators of process_query: the completion call that
carries the tool manifest, the follow-up completion call made inside
the tool-call loop, and session.call_tool.  Each may raise. -/
structure Env where
  completionWithTools : List Msg → Except String LLMResponse
  completionNext : List Msg → Except String LLMResponse
  callTool : String → JsonVal → Except String CallToolResult

/-- Mutable locals of process_query, plus the event trace. -/
structure PQState where
  messages : List Msg
  tool_results : List (String × CallToolResult)
  final_text : List String
  trace : List Event

/-- Extraction of the plain text of a call_tool result: the first
content item when present, otherwise the rendering of the empty list. -/
def extractText (r : CallToolResult) : String :=
  match r.content with
  | t :: _ => t
  | [] => "[]"

/-- Text appended to final_text for each dispatched tool call, from the
interpolation in the source. -/
def markerOf (name : String) (args : JsonVal) : String :=
  "[Calling tool " ++ name ++ " with args " ++ pyStr args ++ "]"

/-- Body of the inner per-tool-call loop of process_query: decode the
arguments, dispatch via session.call_tool, record the result and the
marker, append the assistant and tool-result turns, then immediately
issue the next completion call and append its first-choice text when
nonempty.  A raise at any point aborts with the state reached so far. -/
def runToolCall (env : Env) (choiceContent : Option String) (tc : ToolCallReq)
    (s : PQState) : Except String Unit × PQState :=
  match json_loads tc.arguments with
  | none => (.error "JSONDecodeError", s)
  | some args =>
    match env.callTool tc.name args with
    | .error e =>
      (.error e, { s with trace := s.trace ++ [.tool tc.name args (.error e)] })
    | .ok r =>
      let s1 : PQState :=
        { messages := s.messages ++
            [⟨"assistant", choiceContent.getD ""⟩, ⟨"user", extractText r⟩],
          tool_results := s.tool_results ++ [(tc.name, r)],
          final_text := s.final_text ++ [markerOf tc.name args],
          trace := s.trace ++ [.tool tc.name args (.ok r)] }
      match env.completionNext s1.messages with
      | .error e => (.error e, { s1 with trace := s1.trace ++ [.llm (.error e)] })
      | .ok resp =>
        let s2 : PQState := { s1 with trace := s1.trace ++ [.llm (.ok resp)] }
        match resp.choices with
        | c :: _ =>
          if optTruthy c.message.content then
            (.ok (), { s2 with
              final_text := s2.final_text ++ [c.message.content.getD ""] })
          else (.ok (), s2)
        | [] => (.ok (), s2)

/-- Sequential dispatch of the tool calls of one choice, stopping at
the first raise. -/
def runToolCalls (env : Env) (choiceContent : Option String) :
    List ToolCallReq → PQState → Except String Unit × PQState
  | [], s => (.ok (), s)
  | tc :: rest, s =>
    match runToolCall env choiceContent tc s with
    | (.error e, s') => (.error e, s')
    | (.ok _, s') => runToolCalls env choiceContent rest s'

/-- Processing of one choice of the initial response: append its free
text when truthy, then dispatch its tool calls when any are present. -/
def runChoice (env : Env) (c : Choice) (s : PQState) : Except String Unit × PQState :=
  let s1 : PQState :=
    if optTruthy c.message.content then
      { s with final_text := s.final_text ++ [c.message.content.getD ""] }
    else s
  if c.message.tool_calls.isEmpty then (.ok (), s1)
  else runToolCalls env c.message.content c.message.tool_calls s1

/-- Iteration over the choices of the initial response. -/
def runChoices (env : Env) : List Choice → PQState → Except String Unit × PQState
  | [], s => (.ok (), s)
  | c :: cs, s =>
    match runChoice env c s with
    | (.error e, s') => (.error e, s')
    | (.ok _, s') => runChoices env cs s'

/-- Body of process_query inside the outer try: seed the conversation
with the user query, issue the initial completion call with the tool
manifest, and process its choices. -/
def process_query_run (env : Env) (query : String) : Except String Unit × PQState :=
  let s0 : PQState := ⟨[⟨"user", query⟩], [], [], []⟩
  match env.completionWithTools s0.messages with
  | .error e => (.error e, { s0 with trace := [.llm (.error e)] })
  | .ok resp => runChoices env resp.choices { s0 with trace := [.llm (.ok resp)] }

/-- Embedding of process_query of src/sse_client.py: the newline join
of final_text on normal termination, or the outer-handler text when
anything raised, together with the final observable state. -/
def process_query (env : Env) (query : String) : String × PQState :=
  match process_query_run env query with
  | (.ok _, s) => (String.intercalate "\n" s.final_text, s)
  | (.error e, s) => ("Error processing query: " ++ e, s)

/-- Free text that the completion service produced somewhere in a run
with the given trace. -/
def llmText (tr : List Event) (t : String) : Prop :=
  ∃ resp c, Event.llm (.ok resp) ∈ tr ∧ c ∈ resp.choices ∧ c.message.content = some t

/-- Text admissible in final_text for a run with the given trace:
either completion-service free text or the marker line of a dispatched
tool call. -/
def okText (tr : List Event) (t : String) : Prop :=
  llmText tr t ∨ ∃ n a r, Event.tool n a r ∈ tr ∧ t = markerOf n a

/-- Every accumulated output line of a state is admissible for its
trace. -/
def stateOk (s : PQState) : Prop := ∀ t ∈ s.final_text, okText s.trace t

/-- Choice that originates from a successful completion response
recorded in the trace. -/
def choiceOk (tr : List Event) (c : Choice) : Prop :=
  ∃ resp, Event.llm (.ok resp) ∈ tr ∧ c ∈ resp.choices

/-- Stub collaborators: the first completion requests one tool call
with empty-object arguments alongside free text, and every call_tool
dispatch raises. -/
def envToolRaises : Env :=
  { completionWithTools := fun _ => .ok ⟨[⟨⟨some "A", [⟨"playback", "\x7b\x7d"⟩]⟩⟩]⟩,
    completionNext := fun _ => .ok ⟨[]⟩,
    callTool := fun _ _ => .error "boom" }

/-- Stub collaborators: the first completion requests one tool call and
produces text, the dispatch succeeds, and every follow-up completion
produces more text. -/
def envOneCall : Env :=
  { completionWithTools := fun _ => .ok ⟨[⟨⟨some "A", [⟨"playback", "\x7b\x7d"⟩]⟩⟩]⟩,
    completionNext := fun _ => .ok ⟨[⟨⟨some "B", []⟩⟩]⟩,
    callTool := fun _ _ => .ok ⟨["ok"]⟩ }

/-- Stub collaborators: the first completion requests two tool calls in
one round, both dispatches succeed, and follow-up completions return no
choices. -/
def envTwoCalls : Env :=
  { completionWithTools := fun _ =>
      .ok ⟨[⟨⟨some "A", [⟨"queue", "\x7b\x7d"⟩, ⟨"playback", "\x7b\x7d"⟩]⟩⟩]⟩,
    completionNext := fun _ => .ok ⟨[]⟩,
    callTool := fun _ _ => .ok ⟨["r"]⟩ }

end Client

/-- Backend stub that returns null for every call. -/
def beNull : Backend := fun _ => .ok .null

/-- Backend stub that raises the given message on every call. -/
def beRaise (m : String) : Backend := fun _ => .error m

/-! ## Theorems: server-side dispatcher -/

theorem callThen_calls (be : Backend) (c : BackendCall) (k : JsonVal → String) :
    (callThen be c k).calls = [c] := by
  cases h : be c <;> simp [callThen, h]

theorem callThen_error {be : Backend} {c : BackendCall} {e : String} (k : JsonVal → String)
    (h : be c = .error e) : callThen be c k = ⟨"Error: " ++ e, [c]⟩ := by
  simp [callThen, h]

theorem callThen_ok {be : Backend} {c : BackendCall} {v : JsonVal} (k : JsonVal → String)
    (h : be c = .ok v) : callThen be c k = ⟨k v, [c]⟩ := by
  simp [callThen, h]

theorem optTruthy_some {s : String} (h : s ≠ "") : optTruthy (some s) = true := by
  simp [optTruthy, h]

/-- C1: a tool call on an action whose required argument is absent
returns the validation text that names the missing argument(s), and
the backend is never invoked. -/
theorem c1_missing_required_args (be : Backend) (pid tids nm ds : Option String) :
    queue be "add" none = ⟨"track_id is required for add action", []⟩ ∧
    playlist be "get_tracks" none tids nm ds =
      ⟨"playlist_id is required for get_tracks action.", []⟩ ∧
    playlist be "add_tracks" none tids nm ds =
      ⟨"playlist_id and track_ids are required for add_tracks action.", []⟩ ∧
    playlist be "add_tracks" pid none nm ds =
      ⟨"playlist_id and track_ids are required for add_tracks action.", []⟩ ∧
    playlist be "remove_tracks" none tids nm ds =
      ⟨"playlist_id and track_ids are required for remove_tracks action.", []⟩ ∧
    playlist be "remove_tracks" pid none nm ds =
      ⟨"playlist_id and track_ids are required for remove_tracks action.", []⟩ ∧
    playlist be "change_details" none tids nm ds =
      ⟨"playlist_id is required for change_details action.", []⟩ ∧
    mentions "track_id" "track_id is required for add action" ∧
    mentions "playlist_id" "playlist_id is required for get_tracks action." ∧
    mentions "playlist_id" "playlist_id and track_ids are required for add_tracks action." ∧
    mentions "track_ids" "playlist_id and track_ids are required for add_tracks action." ∧
    mentions "track_ids" "playlist_id and track_ids are required for remove_tracks action." ∧
    mentions "playlist_id" "playlist_id is required for change_details action." := by
  refine ⟨rfl, rfl, rfl, ?_, rfl, ?_, rfl,
    by decide, by decide, by decide, by decide, by decide, by decide⟩ <;>
  simp [playlist, optTruthy]

/-- C7: an action string outside a tool family returns the error text
that enumerates all supported actions of that tool, as an ordinary
result. -/
theorem c7_unknown_action_enumerates (be : Backend) (a : String)
    (uri tid pid tids nm ds : Option String) (n : Int) :
    (a ≠ "get" → a ≠ "start" → a ≠ "pause" → a ≠ "skip" →
      playback be a uri n =
        ⟨"Unknown action: " ++ a ++ ". Supported actions are: get, start, pause, skip.", []⟩) ∧
    (a ≠ "add" → a ≠ "get" →
      queue be a tid =
        ⟨"Unknown queue action: " ++ a ++ ". Supported actions are: add, get.", []⟩) ∧
    (a ≠ "get" → a ≠ "get_tracks" → a ≠ "add_tracks" → a ≠ "remove_tracks" →
      a ≠ "change_details" →
      playlist be a pid tids nm ds =
        ⟨"Unknown playlist action: " ++ a ++
          ". Supported actions are: get, get_tracks, add_tracks, remove_tracks, change_details.",
          []⟩) := by
  refine ⟨fun h1 h2 h3 h4 => ?_, fun h1 h2 => ?_, fun h1 h2 h3 h4 h5 => ?_⟩
  · simp [playback, h1, h2, h3, h4]
  · simp [queue, h1, h2]
  · simp [playlist, h1, h2, h3, h4, h5]

/-- C7 witness: a concrete unrecognized action on each tool family. -/
theorem c7_unknown_action_enumerates_witness :
    playback beNull "jump" none 1 =
      ⟨"Unknown action: jump. Supported actions are: get, start, pause, skip.", []⟩ ∧
    queue beNull "jump" none =
      ⟨"Unknown queue action: jump. Supported actions are: add, get.", []⟩ ∧
    playlist beNull "jump" none none none none =
      ⟨"Unknown playlist action: jump. Supported actions are: get, get_tracks, add_tracks, remove_tracks, change_details.",
        []⟩ := by
  obtain ⟨h1, h2, h3⟩ :=
    c7_unknown_action_enumerates beNull "jump" none none none none none none 1
  exact ⟨h1 (by decide) (by decide) (by decide) (by decide),
    h2 (by decide) (by decide),
    h3 (by decide) (by decide) (by decide) (by decide) (by decide)⟩

/-- C9: when get_current_track returns a falsy value, the playback get
action returns exactly the plain text for an idle player. -/
theorem c9_no_track_playing (be : Backend) (uri : Option String) (n : Int) (v : JsonVal)
    (h : be .get_current_track = .ok v) (hv : truthy v = false) :
    playback be "get" uri n = ⟨"No track playing.", [.get_current_track]⟩ := by
  simp [playback, callThen_ok _ h, hv]

/-- C9 witness: a backend whose current track is null. -/
theorem c9_no_track_playing_witness :
    playback beNull "get" none 1 = ⟨"No track playing.", [.get_current_track]⟩ :=
  c9_no_track_playing beNull none 1 .null rfl rfl

/-- C2: string track_ids is JSON-decoded before forwarding; the decoded
array reaches the backend, and an undecodable string yields the decode
error text with no backend call, for add_tracks and remove_tracks. -/
theorem c2_track_ids_json_decoding (be : Backend) (p : String) (nm ds : Option String)
    (hp : p ≠ "") :
    json_loads "[1,2,3]" = some (.arr [.num 1, .num 2, .num 3]) ∧
    json_loads "not-json" = none ∧
    (playlist be "add_tracks" (some p) (some "[1,2,3]") nm ds).calls =
      [.add_tracks_to_playlist p (.arr [.num 1, .num 2, .num 3])] ∧
    playlist be "add_tracks" (some p) (some "not-json") nm ds =
      ⟨"Error: track_ids must be a valid JSON array.", []⟩ ∧
    (playlist be "remove_tracks" (some p) (some "[1,2,3]") nm ds).calls =
      [.remove_tracks_from_playlist p (.arr [.num 1, .num 2, .num 3])] ∧
    playlist be "remove_tracks" (some p) (some "not-json") nm ds =
      ⟨"Error: track_ids must be a valid JSON array.", []⟩ := by
  have hA : json_loads "[1,2,3]" = some (.arr [.num 1, .num 2, .num 3]) := rfl
  have hB : json_loads "not-json" = none := rfl
  have h1 : optTruthy (some "[1,2,3]") = true := rfl
  have h2 : optTruthy (some "not-json") = true := rfl
  refine ⟨hA, hB, ?_, ?_, ?_, ?_⟩ <;>
  simp [playlist, optTruthy_some hp, h1, h2, hA, hB, callThen_calls]

/-- C2 witness: concrete playlist id and backend. -/
theorem c2_track_ids_json_decoding_witness :
    (playlist beNull "add_tracks" (some "p") (some "[1,2,3]") none none).calls =
      [.add_tracks_to_playlist "p" (.arr [.num 1, .num 2, .num 3])] ∧
    playlist beNull "add_tracks" (some "p") (some "not-json") none none =
      ⟨"Error: track_ids must be a valid JSON array.", []⟩ :=
  ⟨(c2_track_ids_json_decoding beNull "p" none none (by decide)).2.2.1,
   (c2_track_ids_json_decoding beNull "p" none none (by decide)).2.2.2.1⟩

set_option linter.unusedVariables false in
/-- C10: the track_ids check is only JSON-decodability; a decoded value
that is not an array is forwarded to the backend unchanged. -/
theorem c10_nonarray_track_ids_forwarded (be : Backend) (p s : String) (v : JsonVal)
    (nm ds : Option String) (hp : p ≠ "") (hs : json_loads s = some v)
    (hv : v.is_arr = false) :
    (playlist be "add_tracks" (some p) (some s) nm ds).calls =
      [.add_tracks_to_playlist p v] ∧
    (playlist be "remove_tracks" (some p) (some s) nm ds).calls =
      [.remove_tracks_from_playlist p v] := by
  have hsne : s ≠ "" := by
    intro h
    subst h
    simp [show json_loads "" = none from rfl] at hs
  constructor <;>
  simp [playlist, optTruthy_some hp, optTruthy_some hsne, hs, callThen_calls]

/-- C10 witness: a JSON number and a JSON string as track_ids. -/
theorem c10_nonarray_track_ids_forwarded_witness :
    (playlist beNull "add_tracks" (some "p") (some "123") none none).calls =
      [.add_tracks_to_playlist "p" (.num 123)] ∧
    (playlist beNull "remove_tracks" (some "p") (some "\"abc\"") none none).calls =
      [.remove_tracks_from_playlist "p" (.str "abc")] :=
  ⟨(c10_nonarray_track_ids_forwarded beNull "p" "123" (.num 123) none none
      (by decide) rfl rfl).1,
   (c10_nonarray_track_ids_forwarded beNull "p" "\"abc\"" (.str "abc") none none
      (by decide) rfl rfl).2⟩

/-- C8 counterexample: a supplied-but-empty name (with no description)
is rejected with the validation text and no backend call, although the
name is not absent; so "exactly when both are absent" fails on the
code, which tests Python truthiness. -/
theorem c8_counterexample_empty_name :
    playlist beNull "change_details" (some "p") none (some "") none =
      ⟨"At least one of name or description is required.", []⟩ ∧
    (some "" : Option String) ≠ none :=
  ⟨rfl, by decide⟩

/-- C8 amended: with playlist_id present, change_details reaches the
backend exactly when at least one of name or description is truthy
(present and nonempty), and otherwise returns the validation text with
no backend call. -/
theorem c8_change_details_amended (be : Backend) (p : String) (tids nm ds : Option String)
    (hp : p ≠ "") :
    (optTruthy nm = false → optTruthy ds = false →
      playlist be "change_details" (some p) tids nm ds =
        ⟨"At least one of name or description is required.", []⟩) ∧
    (optTruthy nm = true ∨ optTruthy ds = true →
      (playlist be "change_details" (some p) tids nm ds).calls =
        [.change_playlist_details p nm ds]) := by
  constructor
  · intro h1 h2
    simp [playlist, optTruthy_some hp, h1, h2]
  · intro h
    rcases h with h | h <;>
    simp [playlist, optTruthy_some hp, h, callThen_calls]

/-- C8 amended witness: both fields empty versus a nonempty name. -/
theorem c8_change_details_amended_witness :
    playlist beNull "change_details" (some "p") none none none =
      ⟨"At least one of name or description is required.", []⟩ ∧
    (playlist beNull "change_details" (some "p") none (some "New") none).calls =
      [.change_playlist_details "p" (some "New") none] :=
  ⟨(c8_change_details_amended beNull "p" none none none (by decide)).1 rfl rfl,
   (c8_change_details_amended beNull "p" none (some "New") none (by decide)).2
     (Or.inl rfl)⟩

/-- C3: with a backend whose every call raises the message m, every
tool on every action either never touches the backend or returns the
text "Error: " followed by m; no fault leaves the dispatcher. -/
theorem c3_no_fault_escapes (be : Backend) (m : String) (h : ∀ c, be c = .error m)
    (action q qt iuri : String) (uri tid pid tids nm ds : Option String)
    (lim n : Int) :
    ((playback be action uri n).calls ≠ [] →
      (playback be action uri n).result = "Error: " ++ m) ∧
    (search be q qt lim).result = "Error: " ++ m ∧
    ((queue be action tid).calls ≠ [] →
      (queue be action tid).result = "Error: " ++ m) ∧
    (get_info be iuri).result = "Error: " ++ m ∧
    ((playlist be action pid tids nm ds).calls ≠ [] →
      (playlist be action pid tids nm ds).result = "Error: " ++ m) := by
  refine ⟨?_, ?_, ?_, ?_, ?_⟩
  · unfold playback
    split <;> simp [callThen_error _ (h _)]
  · simp [search, callThen_error _ (h _)]
  · unfold queue
    split <;> (try split) <;> simp [callThen_error _ (h _)]
  · simp [get_info, callThen_error _ (h _)]
  · unfold playlist
    split <;> (try split) <;> (try split) <;> simp [callThen_error _ (h _)]

/-- C3 witness: the raising backend on the playback get action and the
search tool. -/
theorem c3_no_fault_escapes_witness :
    (playback (beRaise "boom") "get" none 1).result = "Error: " ++ "boom" ∧
    (search (beRaise "boom") "q" "track" 10).result = "Error: " ++ "boom" :=
  ⟨(c3_no_fault_escapes (beRaise "boom") "boom" (fun _ => rfl) "get" "q" "track" "u"
      none none none none none none 10 1).1
      (List.cons_ne_nil _ _ :
        ([BackendCall.get_current_track] : List BackendCall) ≠ []),
   (c3_no_fault_escapes (beRaise "boom") "boom" (fun _ => rfl) "get" "q" "track" "u"
      none none none none none none 10 1).2.1⟩

/-! ## Theorems: client-side orchestration loop -/

namespace Client

/-- C4 counterexample: when session.call_tool raises, process_query
returns the outer-handler text and the conversation still holds only
the initial user turn; the failure was not folded in as an error turn
and the run ended, contradicting the claim. -/
theorem c4_counterexample :
    (process_query envToolRaises "hi").1 = "Error processing query: boom" ∧
    (process_query envToolRaises "hi").2.messages = [⟨"user", "hi"⟩] ∧
    (process_query envToolRaises "hi").2.final_text = ["A"] :=
  ⟨rfl, rfl, rfl⟩

/-- C4 amended: a raise from session.call_tool propagates to the single
outer try/except of process_query, which terminates the run and returns
the "Error processing query: " text; the conversation is left without
any error turn and the loop does not continue. -/
theorem c4_call_tool_failure_amended (env : Env) (query e : String)
    (resp : LLMResponse) (c : Choice) (rest : List Choice) (tc : ToolCallReq)
    (rest' : List ToolCallReq) (a : JsonVal)
    (h1 : env.completionWithTools [⟨"user", query⟩] = .ok resp)
    (h2 : resp.choices = c :: rest)
    (h3 : c.message.tool_calls = tc :: rest')
    (h4 : json_loads tc.arguments = some a)
    (h5 : env.callTool tc.name a = .error e) :
    (process_query env query).1 = "Error processing query: " ++ e ∧
    (process_query env query).2.messages = [⟨"user", query⟩] := by
  have hiE : c.message.tool_calls.isEmpty = false := by rw [h3]; rfl
  cases hcc : optTruthy c.message.content <;>
  simp [process_query, process_query_run, h1, h2, runChoices, runChoice, hcc, hiE,
    h3, runToolCalls, runToolCall, h4, h5]

/-- C4 amended witness: the raising stub environment. -/
theorem c4_call_tool_failure_amended_witness :
    (process_query envToolRaises "hi").1 = "Error processing query: " ++ "boom" ∧
    (process_query envToolRaises "hi").2.messages = [⟨"user", "hi"⟩] :=
  c4_call_tool_failure_amended envToolRaises "hi" "boom"
    ⟨[⟨⟨some "A", [⟨"playback", "\x7b\x7d"⟩]⟩⟩]⟩
    ⟨⟨some "A", [⟨"playback", "\x7b\x7d"⟩]⟩⟩ [] ⟨"playback", "\x7b\x7d"⟩ []
    (.obj []) rfl rfl rfl rfl rfl

/-- C6 counterexample: with one round of two requested tool calls, the
trace interleaves a completion-service call between the two dispatches,
contradicting the claim that the next completion call is issued only
after all calls of the round. -/
theorem c6_counterexample :
    (process_query_run envTwoCalls "hi").2.trace =
      [.llm (.ok ⟨[⟨⟨some "A", [⟨"queue", "\x7b\x7d"⟩, ⟨"playback", "\x7b\x7d"⟩]⟩⟩]⟩),
       .tool "queue" (.obj []) (.ok ⟨["r"]⟩),
       .llm (.ok ⟨[]⟩),
       .tool "playback" (.obj []) (.ok ⟨["r"]⟩),
       .llm (.ok ⟨[]⟩)] := rfl

/-- C6 amended: the calls of one round are dispatched in listed order,
but after each single dispatch the loop appends the assistant free text
again together with the result of that call as turns and immediately issues
a completion-service call, rather than generating once after the whole
round. -/
theorem c6_per_call_completion_amended (env : Env) (query cA : String)
    (t1 t2 : ToolCallReq) (a1 a2 : JsonVal) (r1 r2 : CallToolResult)
    (respB : LLMResponse)
    (hA : cA ≠ "")
    (h0 : env.completionWithTools [⟨"user", query⟩] = .ok ⟨[⟨⟨some cA, [t1, t2]⟩⟩]⟩)
    (hj1 : json_loads t1.arguments = some a1)
    (hj2 : json_loads t2.arguments = some a2)
    (hc1 : env.callTool t1.name a1 = .ok r1)
    (hc2 : env.callTool t2.name a2 = .ok r2)
    (hN : ∀ ms, env.completionNext ms = .ok respB)
    (hB : respB.choices = []) :
    process_query_run env query =
      (.ok (),
        ⟨[⟨"user", query⟩, ⟨"assistant", cA⟩, ⟨"user", extractText r1⟩,
          ⟨"assistant", cA⟩, ⟨"user", extractText r2⟩],
         [(t1.name, r1), (t2.name, r2)],
         [cA, markerOf t1.name a1, markerOf t2.name a2],
         [.llm (.ok ⟨[⟨⟨some cA, [t1, t2]⟩⟩]⟩),
          .tool t1.name a1 (.ok r1), .llm (.ok respB),
          .tool t2.name a2 (.ok r2), .llm (.ok respB)]⟩) := by
  have hA' : optTruthy (some cA) = true := optTruthy_some hA
  simp [process_query_run, h0, runChoices, runChoice, hA', runToolCalls, runToolCall,
    hj1, hj2, hc1, hc2, hN, hB]

/-- C6 amended witness: the two-call stub environment. -/
theorem c6_per_call_completion_amended_witness :
    process_query_run envTwoCalls "hi" =
      (.ok (),
        ⟨[⟨"user", "hi"⟩, ⟨"assistant", "A"⟩, ⟨"user", "r"⟩,
          ⟨"assistant", "A"⟩, ⟨"user", "r"⟩],
         [("queue", ⟨["r"]⟩), ("playback", ⟨["r"]⟩)],
         ["A", markerOf "queue" (.obj []), markerOf "playback" (.obj [])],
         [.llm (.ok ⟨[⟨⟨some "A", [⟨"queue", "\x7b\x7d"⟩, ⟨"playback", "\x7b\x7d"⟩]⟩⟩]⟩),
          .tool "queue" (.obj []) (.ok ⟨["r"]⟩), .llm (.ok ⟨[]⟩),
          .tool "playback" (.obj []) (.ok ⟨["r"]⟩), .llm (.ok ⟨[]⟩)]⟩) :=
  c6_per_call_completion_amended envTwoCalls "hi" "A"
    ⟨"queue", "\x7b\x7d"⟩ ⟨"playback", "\x7b\x7d"⟩ (.obj []) (.obj [])
    ⟨["r"]⟩ ⟨["r"]⟩ ⟨[]⟩ (by decide) rfl rfl rfl rfl rfl (fun _ => rfl) rfl

theorem llmText_subset {tr tr' : List Event} (hsub : tr ⊆ tr') {t : String}
    (h : llmText tr t) : llmText tr' t := by
  obtain ⟨resp, c, hm, hc, ht⟩ := h
  exact ⟨resp, c, hsub hm, hc, ht⟩

theorem okText_subset {tr tr' : List Event} (hsub : tr ⊆ tr') {t : String}
    (h : okText tr t) : okText tr' t := by
  rcases h with h | ⟨n, a, r, hm, ht⟩
  · exact Or.inl (llmText_subset hsub h)
  · exact Or.inr ⟨n, a, r, hsub hm, ht⟩

theorem choiceOk_subset {tr tr' : List Event} (hsub : tr ⊆ tr') {c : Choice}
    (h : choiceOk tr c) : choiceOk tr' c := by
  obtain ⟨resp, hm, hc⟩ := h
  exact ⟨resp, hsub hm, hc⟩

theorem optTruthy_getD {o : Option String} (h : optTruthy o = true) :
    o = some (o.getD "") := by
  cases o with
  | none => simp [optTruthy] at h
  | some s => simp

theorem runToolCall_stateOk (env : Env) (cc : Option String) (tc : ToolCallReq)
    (s : PQState) (h : stateOk s) :
    stateOk (runToolCall env cc tc s).2 ∧
    ∃ d, (runToolCall env cc tc s).2.trace = s.trace ++ d := by
  unfold runToolCall
  dsimp only
  split
  · exact ⟨h, [], by simp⟩
  · rename_i args hj
    split
    · rename_i e hct
      refine ⟨?_, [Event.tool tc.name args (.error e)], rfl⟩
      intro t ht
      exact okText_subset (List.subset_append_left _ _) (h t ht)
    · rename_i r hct
      split
      · rename_i e hcn
        refine ⟨?_, [Event.tool tc.name args (.ok r), Event.llm (.error e)], by simp⟩
        intro t ht
        rcases List.mem_append.mp ht with ht | ht
        · refine okText_subset ?_ (h t ht)
          intro x hx
          simp [List.mem_append, hx]
        · simp only [List.mem_singleton] at ht
          subst ht
          refine Or.inr ⟨tc.name, args, .ok r, ?_, rfl⟩
          simp [List.mem_append]
      · rename_i resp hcn
        have htool : ∀ tr2 : List Event,
            Event.tool tc.name args (.ok r) ∈
              (s.trace ++ [Event.tool tc.name args (.ok r)]) ++ tr2 := by
          intro tr2
          simp [List.mem_append]
        have hmark : ∀ (t : String), t ∈ s.final_text ++ [markerOf tc.name args] →
            ∀ tr2 : List Event,
            okText ((s.trace ++ [Event.tool tc.name args (.ok r)]) ++ tr2) t := by
          intro t ht tr2
          rcases List.mem_append.mp ht with ht | ht
          · refine okText_subset ?_ (h t ht)
            intro x hx
            simp [List.mem_append, hx]
          · simp only [List.mem_singleton] at ht
            subst ht
            exact Or.inr ⟨tc.name, args, .ok r, htool tr2, rfl⟩
        split
        · rename_i c rest hch
          split
          · rename_i hcc
            refine ⟨?_, [Event.tool tc.name args (.ok r), Event.llm (.ok resp)], by simp⟩
            intro t ht
            rcases List.mem_append.mp ht with ht | ht
            · exact hmark t ht [Event.llm (.ok resp)]
            · simp only [List.mem_singleton] at ht
              subst ht
              refine Or.inl ⟨resp, c, ?_, ?_, optTruthy_getD hcc⟩
              · simp [List.mem_append]
              · rw [hch]
                exact List.mem_cons_self _ _
          · refine ⟨?_, [Event.tool tc.name args (.ok r), Event.llm (.ok resp)], by simp⟩
            intro t ht
            exact hmark t ht [Event.llm (.ok resp)]
        · refine ⟨?_, [Event.tool tc.name args (.ok r), Event.llm (.ok resp)], by simp⟩
          intro t ht
          exact hmark t ht [Event.llm (.ok resp)]

theorem runToolCalls_stateOk (env : Env) (cc : Option String) (l : List ToolCallReq) :
    ∀ s : PQState, stateOk s →
    stateOk (runToolCalls env cc l s).2 ∧
    ∃ d, (runToolCalls env cc l s).2.trace = s.trace ++ d := by
  induction l with
  | nil => exact fun s h => ⟨h, [], by simp [runToolCalls]⟩
  | cons tc rest ih =>
    intro s h
    obtain ⟨h1, d1, hd1⟩ := runToolCall_stateOk env cc tc s h
    unfold runToolCalls
    split
    · rename_i e s' heq
      rw [heq] at h1 hd1
      exact ⟨h1, d1, hd1⟩
    · rename_i u s' heq
      rw [heq] at h1 hd1
      obtain ⟨h2, d2, hd2⟩ := ih s' h1
      exact ⟨h2, d1 ++ d2, by rw [hd2, hd1, List.append_assoc]⟩

theorem runChoice_stateOk (env : Env) (c : Choice) (s : PQState)
    (h : stateOk s) (hc : choiceOk s.trace c) :
    stateOk (runChoice env c s).2 ∧
    ∃ d, (runChoice env c s).2.trace = s.trace ++ d := by
  have key : ∀ s1 : PQState, stateOk s1 → s1.trace = s.trace →
      stateOk (if c.message.tool_calls.isEmpty then ((Except.ok ()), s1)
        else runToolCalls env c.message.content c.message.tool_calls s1).2 ∧
      ∃ d, (if c.message.tool_calls.isEmpty then ((Except.ok ()), s1)
        else runToolCalls env c.message.content c.message.tool_calls s1).2.trace
          = s.trace ++ d := by
    intro s1 h1 htr
    split
    · exact ⟨h1, [], by simp [htr]⟩
    · obtain ⟨h2, d2, hd2⟩ := runToolCalls_stateOk env c.message.content
        c.message.tool_calls s1 h1
      exact ⟨h2, d2, by rw [hd2, htr]⟩
  unfold runChoice
  cases hcc : optTruthy c.message.content with
  | false =>
    rw [if_neg (show ¬((false : Bool) = true) by decide)]
    exact key s h rfl
  | true =>
    rw [if_pos (show (true : Bool) = true from rfl)]
    refine key _ ?_ rfl
    intro t ht
    rcases List.mem_append.mp ht with ht | ht
    · exact h t ht
    · simp only [List.mem_singleton] at ht
      subst ht
      obtain ⟨resp, hm, hcm⟩ := hc
      exact Or.inl ⟨resp, c, hm, hcm, optTruthy_getD hcc⟩

theorem runChoices_stateOk (env : Env) (l : List Choice) :
    ∀ s : PQState, stateOk s → (∀ c ∈ l, choiceOk s.trace c) →
    stateOk (runChoices env l s).2 ∧
    ∃ d, (runChoices env l s).2.trace = s.trace ++ d := by
  induction l with
  | nil => exact fun s h _ => ⟨h, [], by simp [runChoices]⟩
  | cons c rest ih =>
    intro s h hcs
    obtain ⟨h1, d1, hd1⟩ := runChoice_stateOk env c s h (hcs c (by simp))
    unfold runChoices
    split
    · rename_i e s' heq
      rw [heq] at h1 hd1
      exact ⟨h1, d1, hd1⟩
    · rename_i u s' heq
      rw [heq] at h1 hd1
      have hcs' : ∀ c' ∈ rest, choiceOk s'.trace c' := by
        intro c' hc'
        refine choiceOk_subset ?_ (hcs c' (by simp [hc']))
        rw [hd1]
        exact List.subset_append_left _ _
      obtain ⟨h2, d2, hd2⟩ := ih s' h1 hcs'
      exact ⟨h2, d1 ++ d2, by rw [hd2, hd1, List.append_assoc]⟩

/-- C5 amended: every line of the accumulated output of a run is either
free text produced by the completion service in that run or the
"[Calling tool ...]" marker of a dispatched call, and on normal
termination process_query returns the newline join of those lines; the
output is therefore not completion-service text alone. -/
theorem c5_final_text_amended (env : Env) (query : String) :
    (∀ t ∈ (process_query_run env query).2.final_text,
      okText (process_query_run env query).2.trace t) ∧
    (∀ s, process_query_run env query = (.ok (), s) →
      process_query env query = (String.intercalate "\n" s.final_text, s)) := by
  constructor
  · cases heq : env.completionWithTools [⟨"user", query⟩] with
    | error e =>
      rw [show process_query_run env query =
        (.error e, ⟨[⟨"user", query⟩], [], [], [.llm (.error e)]⟩) from by
          simp [process_query_run, heq]]
      intro t ht
      simp at ht
    | ok resp =>
      rw [show process_query_run env query =
        runChoices env resp.choices ⟨[⟨"user", query⟩], [], [], [.llm (.ok resp)]⟩ from by
          simp [process_query_run, heq]]
      exact (runChoices_stateOk env resp.choices
        ⟨[⟨"user", query⟩], [], [], [.llm (.ok resp)]⟩
        (by intro t ht; simp at ht)
        (by intro c hc; exact ⟨resp, by simp, hc⟩)).1
  · intro s hs
    unfold process_query
    rw [hs]

/-- C5 amended witness: in the one-call stub run, the initial free text
is admissible output and the returned value is the newline join of the
accumulated lines. -/
theorem c5_final_text_amended_witness :
    okText (process_query_run envOneCall "hi").2.trace "A" ∧
    (process_query envOneCall "hi").1 =
      String.intercalate "\n" (process_query_run envOneCall "hi").2.final_text := by
  constructor
  · refine (c5_final_text_amended envOneCall "hi").1 "A" ?_
    rw [show (process_query_run envOneCall "hi").2.final_text =
      ["A", "[Calling tool playback with args \x7b\x7d]", "B"] from rfl]
    exact List.mem_cons_self _ _
  · rw [(c5_final_text_amended envOneCall "hi").2 (process_query_run envOneCall "hi").2 rfl]

/-- C5 counterexample: the one-call stub run terminates normally, the
completion service produced only the texts "A" and "B" (visible in the
trace), yet the returned value also contains the marker line, so it is
not the concatenation of completion-service free text and nothing
else. -/
theorem c5_counterexample :
    (process_query envOneCall "hi").1 =
      "A\n[Calling tool playback with args \x7b\x7d]\nB" ∧
    (process_query envOneCall "hi").2.trace =
      [.llm (.ok ⟨[⟨⟨some "A", [⟨"playback", "\x7b\x7d"⟩]⟩⟩]⟩),
       .tool "playback" (.obj []) (.ok ⟨["ok"]⟩),
       .llm (.ok ⟨[⟨⟨some "B", []⟩⟩]⟩)] ∧
    (process_query envOneCall "hi").1 ≠ "A" ++ "\n" ++ "B" ∧
    (process_query envOneCall "hi").1 ≠ "A" ++ "B" :=
  ⟨rfl, rfl, by decide, by decide⟩

end Client

end SpotifyMcp
